import Mathlib

/-!
Verification of the OpenClaw ollama-bot event relay
(src/trading/ai-trading/ollama-bot-files/ollama-bot.py).

Shallow embedding conventions:
- Python/JSON values are modelled by `PyVal`.
- Python floats are modelled exactly as decimal-scaled integers
  (`PyFloat`: value = mant / 10 ^ exp).  Every float handled by the bot
  originates from a JSON decimal or a literal, and the only float
  operations the bot performs are truthiness, sign tests and textual
  formatting, all of which this representation captures exactly.
- Fallible Python code returns `Except PyErr _`; an uncaught Python
  exception is an `Except.error`.
- External services (the VPS HTTP API, the Ollama backend, the Discord
  send) are oracles passed in as function parameters; a call that the
  code observes as failing is an oracle answer saying so.
-/

inductive PyErr where
  | attributeError
  | typeError
  | keyError
  | valueError
  | other (msg : String)
deriving Repr, DecidableEq

/-- Python float modelled exactly as mant / 10 ^ exp. -/
structure PyFloat where
  mant : Int
  exp : Nat
deriving Repr, DecidableEq

/-- Python/JSON runtime values as manipulated by the bot. -/
inductive PyVal where
  | none
  | bool (b : Bool)
  | int (n : Int)
  | float (f : PyFloat)
  | str (s : String)
  | list (xs : List PyVal)
  | dict (xs : List (String × PyVal))
deriving Repr

/-- Python truthiness. -/
def PyVal.truthy : PyVal → Bool
  | .none => false
  | .bool b => b
  | .int n => n != 0
  | .float f => f.mant != 0
  | .str s => s != ""
  | .list xs => !xs.isEmpty
  | .dict xs => !xs.isEmpty

def PyVal.isDictB : PyVal → Bool
  | .dict _ => true
  | _ => false

/-- Lookup in a Python dict (insertion-ordered association list). -/
def dictGet (xs : List (String × PyVal)) (k : String) : Option PyVal :=
  (xs.find? (fun kv => kv.1 == k)).map (fun kv => kv.2)

/-- `d.get(k, default)` for a value known to be a dict. -/
def dget (xs : List (String × PyVal)) (k : String) (dft : PyVal) : PyVal :=
  (dictGet xs k).getD dft

/-- An event as fetched from the API: a JSON object. -/
def Event := List (String × PyVal)

/-- `event.get(k, default)` on an event object. -/
def eget (e : Event) (k : String) (dft : PyVal) : PyVal :=
  (dictGet e k).getD dft

/-- `v.get(k, default)` on an arbitrary value: AttributeError unless dict. -/
def pyGetD (v : PyVal) (k : String) (dft : PyVal) : Except PyErr PyVal :=
  match v with
  | .dict xs => .ok (dget xs k dft)
  | _ => .error .attributeError

/-- `v[k]` string subscription: KeyError when absent, TypeError unless dict. -/
def pySubscr (v : PyVal) (k : String) : Except PyErr PyVal :=
  match v with
  | .dict xs =>
    match dictGet xs k with
    | some x => .ok x
    | Option.none => .error .keyError
  | _ => .error .typeError

/-- `k in v` for a string k: dict keys, list membership, substring on str. -/
def pyContains (v : PyVal) (k : String) : Except PyErr Bool :=
  match v with
  | .dict xs => .ok (xs.any (fun kv => kv.1 == k))
  | .list xs =>
    .ok (xs.any (fun x => match x with | .str s => s == k | _ => false))
  | .str s => .ok ((s.splitOn k).length > 1)
  | _ => .error .typeError

/-- `len(v)`: TypeError on unsized values. -/
def pyLen : PyVal → Except PyErr Nat
  | .str s => .ok s.length
  | .list xs => .ok xs.length
  | .dict xs => .ok xs.length
  | _ => .error .typeError

/-- `for x in v`: list elements, characters of a str, keys of a dict. -/
def pyIter : PyVal → Except PyErr (List PyVal)
  | .list xs => .ok xs
  | .str s => .ok (s.toList.map (fun c => .str (String.mk [c])))
  | .dict xs => .ok (xs.map (fun kv => PyVal.str kv.1))
  | _ => .error .typeError

/-- Python slicing `s[:n]` on a string: the first n characters. -/
def pyTake (s : String) (n : Nat) : String :=
  String.mk (s.toList.take n)

def isWsCh (c : Char) : Bool :=
  c == ' ' || c == '\n' || c == '\t' || c == '\r'

/-- Python `s.strip()`. -/
def pyStrip (s : String) : String :=
  String.mk (((s.toList.dropWhile isWsCh).reverse.dropWhile isWsCh).reverse)

/-- `v[:n]` slicing. -/
def pySlice (v : PyVal) (n : Nat) : Except PyErr PyVal :=
  match v with
  | .list xs => .ok (.list (xs.take n))
  | .str s => .ok (.str (pyTake s n))
  | _ => .error .typeError

/-- Left-pad a digit string with zeros to width k. -/
def padZeros (s : String) (k : Nat) : String :=
  String.mk (List.replicate (k - s.length) '0') ++ s

/-- Strip trailing decimal zeros from a scaled-decimal representation. -/
def pfNorm : Int → Nat → Int × Nat
  | m, 0 => (m, 0)
  | m, e + 1 =>
    if m = 0 then (0, 0)
    else if m % 10 = 0 then pfNorm (m / 10) e
    else (m, e + 1)

/-- Python `str()` of a float: exact shortest decimal, always with a point. -/
def floatStr (v : PyFloat) : String :=
  let p := pfNorm v.mant v.exp
  let sign := if p.1 < 0 then "-" else ""
  let a := p.1.natAbs
  if p.2 = 0 then sign ++ toString a ++ ".0"
  else sign ++ toString (a / 10 ^ p.2) ++ "." ++ padZeros (toString (a % 10 ^ p.2)) p.2

/-- Python fixed-point formatting, as in a format spec such as .2f
(rounding ties to even on the decimal value; Python rounds the underlying
binary double, which agrees on every value the bot formats). -/
def fixedStr (prec : Nat) (v : PyFloat) : String :=
  let a := v.mant.natAbs
  let scaled : Nat :=
    if v.exp ≤ prec then a * 10 ^ (prec - v.exp)
    else
      let d := 10 ^ (v.exp - prec)
      let q := a / d
      let r := a % d
      if 2 * r > d then q + 1
      else if 2 * r < d then q
      else if q % 2 = 1 then q + 1 else q
  (if v.mant < 0 then "-" else "") ++ toString (scaled / 10 ^ prec) ++
    (if prec = 0 then "" else "." ++ padZeros (toString (scaled % 10 ^ prec)) prec)

/-- Fixed-point formatting with an explicit leading sign (format spec +.1f). -/
def signedFixedStr (prec : Nat) (v : PyFloat) : String :=
  if v.mant < 0 then fixedStr prec v else "+" ++ fixedStr prec v

/-- Apply a numeric format spec such as .2f to a value: int, float and bool
format; any other type raises (ValueError / TypeError as Python does). -/
def pyFormatF (prec : Nat) : PyVal → Except PyErr String
  | .int n => .ok (fixedStr prec ⟨n, 0⟩)
  | .float f => .ok (fixedStr prec f)
  | .bool b => .ok (fixedStr prec ⟨if b then 1 else 0, 0⟩)
  | .str _ => .error .valueError
  | _ => .error .typeError

/-- Apply a signed numeric format spec such as +.1f to a value. -/
def pyFormatSF (prec : Nat) : PyVal → Except PyErr String
  | .int n => .ok (signedFixedStr prec ⟨n, 0⟩)
  | .float f => .ok (signedFixedStr prec f)
  | .bool b => .ok (signedFixedStr prec ⟨if b then 1 else 0, 0⟩)
  | .str _ => .error .valueError
  | _ => .error .typeError

/-- Digits of a decimal string to a Nat. -/
def digitsToNat (ds : List Char) : Nat :=
  ds.foldl (fun acc c => acc * 10 + (c.toNat - '0'.toNat)) 0

/-- Python `float(v)` conversion: numbers convert, simple decimal strings
parse, everything else raises. -/
def pyToFloat : PyVal → Except PyErr PyFloat
  | .int n => .ok ⟨n, 0⟩
  | .float f => .ok f
  | .bool b => .ok ⟨if b then 1 else 0, 0⟩
  | .str s =>
    let cs := s.toList
    let p : Bool × List Char := match cs with
      | '-' :: r => (true, r)
      | '+' :: r => (false, r)
      | r => (false, r)
    let ds := p.2.takeWhile Char.isDigit
    let rest := p.2.dropWhile Char.isDigit
    if ds.isEmpty then .error .valueError
    else
      match rest with
      | [] =>
        let m : Int := digitsToNat ds
        .ok ⟨if p.1 then -m else m, 0⟩
      | '.' :: r2 =>
        let fs := r2.takeWhile Char.isDigit
        let r3 := r2.dropWhile Char.isDigit
        if r3.isEmpty then
          let m : Int := digitsToNat ds * 10 ^ fs.length + digitsToNat fs
          .ok ⟨if p.1 then -m else m, fs.length⟩
        else .error .valueError
      | _ => .error .valueError
  | _ => .error .typeError

def charLB : Char := Char.ofNat 123
def charRB : Char := Char.ofNat 125
def sglq : String := String.mk [Char.ofNat 39]

-- Python repr(), as used by str() on containers.  String escaping inside
-- repr is approximated by plain quoting (the bot never reprs a string that
-- contains a quote).
mutual
def pyRepr : PyVal → String
  | .none => "None"
  | .bool true => "True"
  | .bool false => "False"
  | .int n => toString n
  | .float f => floatStr f
  | .str s => sglq ++ s ++ sglq
  | .list xs => "[" ++ prJoinL xs ++ "]"
  | .dict xs => "\x7b" ++ prJoinD xs ++ "\x7d"
def prJoinL : List PyVal → String
  | [] => ""
  | [x] => pyRepr x
  | x :: xs => pyRepr x ++ ", " ++ prJoinL xs
def prJoinD : List (String × PyVal) → String
  | [] => ""
  | [kv] => sglq ++ kv.1 ++ sglq ++ ": " ++ pyRepr kv.2
  | kv :: xs => sglq ++ kv.1 ++ sglq ++ ": " ++ pyRepr kv.2 ++ ", " ++ prJoinD xs
end

/-- Python `str()`: identity on strings, repr-like elsewhere. -/
def pyStr : PyVal → String
  | .str s => s
  | v => pyRepr v

/-- Minimal JSON string escaping (quote, backslash, control whitespace). -/
def jsonEscapeChar (c : Char) : String :=
  if c == '"' then "\\\""
  else if c == '\\' then "\\\\"
  else if c == '\n' then "\\n"
  else if c == '\t' then "\\t"
  else if c == '\r' then "\\r"
  else String.mk [c]

def jsonEscape (s : String) : String :=
  String.join (s.toList.map jsonEscapeChar)

-- json.dumps(v, default=str) with the default separators.
mutual
def json_dumps : PyVal → String
  | .none => "null"
  | .bool true => "true"
  | .bool false => "false"
  | .int n => toString n
  | .float f => floatStr f
  | .str s => "\"" ++ jsonEscape s ++ "\""
  | .list xs => "[" ++ jdJoinL xs ++ "]"
  | .dict xs => "\x7b" ++ jdJoinD xs ++ "\x7d"
def jdJoinL : List PyVal → String
  | [] => ""
  | [x] => json_dumps x
  | x :: xs => json_dumps x ++ ", " ++ jdJoinL xs
def jdJoinD : List (String × PyVal) → String
  | [] => ""
  | [kv] => "\"" ++ jsonEscape kv.1 ++ "\": " ++ json_dumps kv.2
  | kv :: xs => "\"" ++ jsonEscape kv.1 ++ "\": " ++ json_dumps kv.2 ++ ", " ++ jdJoinD xs
end

/-- Indentation prefix used by json.dumps(v, indent=2). -/
def indSp (lvl : Nat) : String :=
  String.mk (List.replicate (2 * lvl) ' ')

-- json.dumps(v, indent=2, default=str).
mutual
def jdI : Nat → PyVal → String
  | _, .list [] => "[]"
  | lvl, .list xs => "[\n" ++ jdIL (lvl + 1) xs ++ "\n" ++ indSp lvl ++ "]"
  | _, .dict [] => "\x7b\x7d"
  | lvl, .dict xs => "\x7b\n" ++ jdID (lvl + 1) xs ++ "\n" ++ indSp lvl ++ "\x7d"
  | _, v => json_dumps v
def jdIL : Nat → List PyVal → String
  | _, [] => ""
  | lvl, [x] => indSp lvl ++ jdI lvl x
  | lvl, x :: xs => indSp lvl ++ jdI lvl x ++ ",\n" ++ jdIL lvl xs
def jdID : Nat → List (String × PyVal) → String
  | _, [] => ""
  | lvl, [kv] => indSp lvl ++ "\"" ++ jsonEscape kv.1 ++ "\": " ++ jdI lvl kv.2
  | lvl, kv :: xs =>
    indSp lvl ++ "\"" ++ jsonEscape kv.1 ++ "\": " ++ jdI lvl kv.2 ++ ",\n" ++ jdID lvl xs
end

def jsonDumpsIndent2 (v : PyVal) : String := jdI 0 v

/-- Skip JSON whitespace. -/
def skipWs : List Char → List Char
  | c :: cs =>
    if c == ' ' || c == '\n' || c == '\t' || c == '\r' then skipWs cs else c :: cs
  | [] => []

/-- Parse a JSON string body after the opening quote. -/
def jparseStr : List Char → List Char → Option (PyVal × List Char)
  | [], _ => Option.none
  | c :: cs, acc =>
    if c == '"' then some (.str (String.mk acc.reverse), cs)
    else if c == '\\' then
      match cs with
      | 'n' :: r => jparseStr r ('\n' :: acc)
      | 't' :: r => jparseStr r ('\t' :: acc)
      | 'r' :: r => jparseStr r ('\r' :: acc)
      | '"' :: r => jparseStr r ('"' :: acc)
      | '\\' :: r => jparseStr r ('\\' :: acc)
      | '/' :: r => jparseStr r ('/' :: acc)
      | _ => Option.none
    else jparseStr cs (c :: acc)

/-- Parse a JSON number (integer or decimal fraction; exponents, which the
bot never receives, are rejected like any other malformed input). -/
def jparseNum (cs : List Char) : Option (PyVal × List Char) :=
  let p : Bool × List Char := match cs with
    | '-' :: r => (true, r)
    | r => (false, r)
  let ds := p.2.takeWhile Char.isDigit
  let rest := p.2.dropWhile Char.isDigit
  if ds.isEmpty then Option.none
  else
    match rest with
    | '.' :: r2 =>
      let fs := r2.takeWhile Char.isDigit
      let r3 := r2.dropWhile Char.isDigit
      if fs.isEmpty then Option.none
      else
        let m : Int := digitsToNat ds * 10 ^ fs.length + digitsToNat fs
        some (.float ⟨if p.1 then -m else m, fs.length⟩, r3)
    | _ =>
      let m : Int := digitsToNat ds
      some (.int (if p.1 then -m else m), rest)

-- json.loads recursive descent, fuelled for termination.
mutual
def jparse : Nat → List Char → Option (PyVal × List Char)
  | 0, _ => Option.none
  | fuel + 1, cs =>
    match skipWs cs with
    | [] => Option.none
    | c :: rest =>
      if c == 'n' then
        match rest with
        | 'u' :: 'l' :: 'l' :: r => some (.none, r)
        | _ => Option.none
      else if c == 't' then
        match rest with
        | 'r' :: 'u' :: 'e' :: r => some (.bool true, r)
        | _ => Option.none
      else if c == 'f' then
        match rest with
        | 'a' :: 'l' :: 's' :: 'e' :: r => some (.bool false, r)
        | _ => Option.none
      else if c == '"' then jparseStr rest []
      else if c == '[' then
        match skipWs rest with
        | ']' :: r => some (.list [], r)
        | r => jparseItems fuel r []
      else if c == charLB then
        match skipWs rest with
        | d :: r => if d == charRB then some (.dict [], r) else jparseEntries fuel (d :: r) []
        | [] => Option.none
      else if c == '-' || c.isDigit then jparseNum (c :: rest)
      else Option.none
def jparseItems : Nat → List Char → List PyVal → Option (PyVal × List Char)
  | 0, _, _ => Option.none
  | fuel + 1, cs, acc =>
    match jparse fuel cs with
    | some (v, r) =>
      (match skipWs r with
       | ',' :: r2 => jparseItems fuel r2 (acc ++ [v])
       | c :: r2 => if c == ']' then some (.list (acc ++ [v]), r2) else Option.none
       | [] => Option.none)
    | Option.none => Option.none
def jparseEntries : Nat → List Char → List (String × PyVal) → Option (PyVal × List Char)
  | 0, _, _ => Option.none
  | fuel + 1, cs, acc =>
    match skipWs cs with
    | '"' :: r =>
      (match jparseStr r [] with
       | some (.str k, r2) =>
         (match skipWs r2 with
          | ':' :: r3 =>
            (match jparse fuel r3 with
             | some (v, r4) =>
               (match skipWs r4 with
                | ',' :: r5 => jparseEntries fuel r5 (acc ++ [(k, v)])
                | c :: r5 => if c == charRB then some (.dict (acc ++ [(k, v)]), r5) else Option.none
                | [] => Option.none)
             | Option.none => Option.none)
          | _ => Option.none)
       | _ => Option.none)
    | _ => Option.none
end

/-- `json.loads(s)`: some parsed value, or none when the call raises. -/
def json_loads (s : String) : Option PyVal :=
  match jparse (s.length + 1) s.toList with
  | some (v, rest) => if (skipWs rest).isEmpty then some v else Option.none
  | Option.none => Option.none

/-- `call_ollama(prompt, max_tokens)` (ollama-bot.py lines 55-67): the
backend oracle yields the generated text, which is stripped; any backend
failure is caught and yields None. -/
def call_ollama (backend : String → Nat → Option String) (prompt : String)
    (maxTokens : Nat) : Option String :=
  (backend prompt maxTokens).map pyStrip

/-- The metadata value used by `format_event_with_ollama` (lines 72-77):
a string metadata is decoded best-effort; on decode failure the original
string is kept (the except clause is `pass`). -/
def prompt_meta (event : Event) : PyVal :=
  match eget event "metadata" PyVal.none with
  | .str s =>
    (match json_loads s with
     | some v => v
     | Option.none => .str s)
  | v => v

/-- The metadata value used by `format_event_fallback` (lines 96-102):
a string metadata is decoded best-effort, an undecodable string is
replaced by the empty dict, and any falsy result defaults to the empty
dict (`meta = meta or` the empty dict). -/
def effMeta (event : Event) : PyVal :=
  match eget event "metadata" PyVal.none with
  | .str s =>
    (match json_loads s with
     | some v => if v.truthy then v else PyVal.dict []
     | Option.none => PyVal.dict [])
  | v => if v.truthy then v else PyVal.dict []

-- The per-event-type templates of format_event_fallback (lines 104-113).
-- Each template reads meta.get(...), which raises AttributeError unless
-- the metadata value is a dict.

def tmplBUY (sym meta : PyVal) : Except PyErr String :=
  match meta with
  | .dict xs =>
    .ok ("🟢 **BUY** " ++ pyStr sym ++ " @ $" ++ pyStr (dget xs "price" (.str "?")) ++
      " | Conf: " ++ pyStr (dget xs "confidence" (.str "?")) ++ " | " ++
      pyTake (pyStr (dget xs "reasoning" (.str ""))) 100)
  | _ => .error .attributeError

def tmplSELL (sym meta : PyVal) : Except PyErr String :=
  match meta with
  | .dict xs =>
    .ok ("🔴 **SELL** " ++ pyStr sym ++ " @ $" ++ pyStr (dget xs "price" (.str "?")) ++
      " | P&L: $" ++ pyStr (dget xs "pnl" (.str "?")) ++ " (" ++
      pyStr (dget xs "pnl_percent" (.str "?")) ++ "%)")
  | _ => .error .attributeError

def tmplDCA (sym meta : PyVal) : Except PyErr String :=
  match meta with
  | .dict xs =>
    .ok ("🔵 **DCA** " ++ pyStr sym ++ " @ $" ++ pyStr (dget xs "price" (.str "?")) ++
      " | New avg: $" ++ pyStr (dget xs "new_avg_entry" (.str "?")))
  | _ => .error .attributeError

def tmplPartExit (sym meta : PyVal) : Except PyErr String :=
  match meta with
  | .dict xs =>
    .ok ("💰 **PARTIAL EXIT** " ++ pyStr sym ++ " " ++ pyStr (dget xs "exit_percent" (.str "")) ++
      "% @ $" ++ pyStr (dget xs "price" (.str "?")) ++ " | P&L: $" ++
      pyStr (dget xs "pnl" (.str "?")))
  | _ => .error .attributeError

def tmplCircuitBreaker (meta : PyVal) : Except PyErr String :=
  match meta with
  | .dict xs =>
    .ok ("⚠️ **CIRCUIT BREAKER** | " ++ pyStr (dget xs "consecutive_losses" (.str "?")) ++
      " losses | Pausing " ++ pyStr (dget xs "cooldown_hours" (.str "?")) ++ "h")
  | _ => .error .attributeError

def tmplHourly (meta : PyVal) : Except PyErr String :=
  match meta with
  | .dict xs => do
    let u ← pyFormatF 2 (dget xs "unrealized_pnl" (.int 0))
    let r ← pyFormatF 2 (dget xs "realized_pnl" (.int 0))
    pure ("📊 **Hourly** | " ++ pyStr (dget xs "open_positions" (.int 0)) ++
      " positions | P&L: $" ++ u ++ " unrealized, $" ++ r ++ " realized")
  | _ => .error .attributeError

def tmplEngineStart (meta : PyVal) : Except PyErr String :=
  match meta with
  | .dict xs =>
    .ok ("🚀 **Engine Started** | " ++ pyStr (dget xs "symbols" (.str "?")) ++
      " symbols | $" ++ pyStr (dget xs "capital" (.str "?")) ++ " capital | Paper: " ++
      pyStr (dget xs "paper_trading" (.str "?")))
  | _ => .error .attributeError

def tmplEngineStop (meta : PyVal) : Except PyErr String :=
  match meta with
  | .dict xs =>
    .ok ("🛑 **Engine Stopped** | " ++ pyStr (dget xs "cycle_count" (.str "?")) ++
      " cycles completed")
  | _ => .error .attributeError

/-- The generic template for unknown event types (line 115). -/
def genericTmpl (et sym meta : PyVal) : Except PyErr String :=
  .ok ("📌 **" ++ pyStr et ++ "** " ++ pyStr sym ++ " | " ++ pyTake (json_dumps meta) 200)

/-- `format_event_fallback(event)` (ollama-bot.py lines 92-116).  The
template dict is keyed by strings, equivalently looked up by an equality
chain here; `templates.get(et, default)` raises TypeError when the
event_type value is unhashable (a list or dict); any other unknown value
selects the generic template. -/
def format_event_fallback (event : Event) : Except PyErr String :=
  match eget event "event_type" (.str "UNKNOWN") with
  | .list _ => .error .typeError
  | .dict _ => .error .typeError
  | .str t =>
    if t == "BUY" then tmplBUY (eget event "symbol" (.str "")) (effMeta event)
    else if t == "SELL" then tmplSELL (eget event "symbol" (.str "")) (effMeta event)
    else if t == "DCA" then tmplDCA (eget event "symbol" (.str "")) (effMeta event)
    else if t == "PARTIAL_EXIT" then
      tmplPartExit (eget event "symbol" (.str "")) (effMeta event)
    else if t == "CIRCUIT_BREAKER" then tmplCircuitBreaker (effMeta event)
    else if t == "HOURLY_SUMMARY" then tmplHourly (effMeta event)
    else if t == "ENGINE_START" then tmplEngineStart (effMeta event)
    else if t == "ENGINE_STOP" then tmplEngineStop (effMeta event)
    else genericTmpl (.str t) (eget event "symbol" (.str "")) (effMeta event)
  | other => genericTmpl other (eget event "symbol" (.str "")) (effMeta event)

/-- The prompt built by `format_event_with_ollama` (lines 78-85). -/
def ollama_prompt (event : Event) : String :=
  "Format this trading event as a short Discord message. " ++
  "Use emoji. Keep under 300 characters. Be concise.\n\n" ++
  "Type: " ++ pyStr (eget event "event_type" PyVal.none) ++ "\n" ++
  "Symbol: " ++ pyStr (eget event "symbol" (.str "N/A")) ++ "\n" ++
  "Data: " ++ pyTake (json_dumps (prompt_meta event)) 500 ++ "\n" ++
  "Time: " ++ pyStr (eget event "created_at" (.str ""))

/-- `format_event_with_ollama(event)` (ollama-bot.py lines 70-89). -/
def format_event_with_ollama (backend : String → Nat → Option String)
    (event : Event) : Except PyErr String :=
  match call_ollama backend (ollama_prompt event) 200 with
  | some result =>
    if result != "" then .ok (pyTake result 500) else format_event_fallback event
  | Option.none => format_event_fallback event

/-- `format_event_with_ollama` applied to an arbitrary fetched value:
a non-dict event raises AttributeError at the first `event.get`. -/
def format_event_with_ollama_v (backend : String → Nat → Option String) :
    PyVal → Except PyErr String
  | .dict xs => format_event_with_ollama backend xs
  | _ => .error .attributeError

/-- Outcome of the single HTTP POST a `call_vps_api` invocation performs:
either the request raises (transport failure, timeout), or a response
arrives with a status code, a body that `resp.json()` either parses or
fails on, and the raw text. -/
inductive HttpOutcome where
  | exn
  | response (status : Nat) (jsonBody : Option PyVal) (text : String)

/-- Python `dict.update`: overwrite existing keys in place, append new
keys in order. -/
def dictUpdate (base extra : List (String × PyVal)) : List (String × PyVal) :=
  (base.map fun kv =>
    match extra.find? (fun kv2 => kv2.1 == kv.1) with
    | some kv2 => (kv.1, kv2.2)
    | Option.none => kv) ++
  extra.filter (fun kv2 => !(base.any (fun kv => kv.1 == kv2.1)))

/-- The request body built by `call_vps_api` (lines 35-37): the action
tag, updated with `extra_data` when that is truthy. -/
def requestBody (action : String) (extra : Option (List (String × PyVal))) :
    List (String × PyVal) :=
  let base := [("action", PyVal.str action)]
  match extra with
  | some xs => if xs.isEmpty then base else dictUpdate base xs
  | Option.none => base

/-- The try block of `call_vps_api` (lines 38-48): one POST; on status 200
return `resp.json()` (which may itself raise); otherwise log and return
None. -/
def call_vps_api_try (http : List (String × PyVal) → HttpOutcome) (action : String)
    (extra : Option (List (String × PyVal))) : Except PyErr (Option PyVal) :=
  match http (requestBody action extra) with
  | .exn => .error (.other "request failed")
  | .response status body _ =>
    if status == 200 then
      match body with
      | some j => .ok (some j)
      | Option.none => .error .valueError
    else .ok Option.none

/-- `call_vps_api(action, extra_data)` (ollama-bot.py lines 33-51): the
whole try block is wrapped by an except that returns None. -/
def call_vps_api (http : List (String × PyVal) → HttpOutcome) (action : String)
    (extra : Option (List (String × PyVal))) : Option PyVal :=
  match call_vps_api_try http action extra with
  | .ok v => v
  | .error _ => Option.none

-- ── handle_user_query (ollama-bot.py lines 121-169) ───────────

/-- `x and "data" in x` for an API result. -/
def condDataIn (o : Option PyVal) : Except PyErr Bool :=
  match o with
  | Option.none => .ok false
  | some v => if !v.truthy then .ok false else pyContains v "data"

/-- The portfolio paragraph of the query context (lines 130-137). -/
def portfolioSection (portfolio : Option PyVal) : Except PyErr String := do
  if !(← condDataIn portfolio) then pure "" else
  match portfolio with
  | Option.none => pure ""
  | some v => do
    let p ← pySubscr v "data"
    let oc ← pyGetD p "open_count" (.int 0)
    let mp ← pyGetD p "max_positions" (.int 5)
    let ti ← pyFormatF 2 (← pyGetD p "total_invested" (.int 0))
    let ac ← pyFormatF 2 (← pyGetD p "available_capital" (.int 0))
    let up ← pyFormatF 2 (← pyGetD p "unrealized_pnl" (.int 0))
    let upp ← pyFormatF 1 (← pyGetD p "unrealized_pnl_percent" (.int 0))
    let rp ← pyFormatF 2 (← pyGetD p "realized_pnl" (.int 0))
    let wr ← pyFormatF 1 (← pyGetD p "win_rate" (.int 0))
    let tt ← pyGetD p "total_trades" (.int 0)
    pure ("Portfolio: " ++ pyStr oc ++ "/" ++ pyStr mp ++ " positions | " ++
      "Invested: $" ++ ti ++ " | " ++
      "Available: $" ++ ac ++ " | " ++
      "Unrealized: $" ++ up ++ " (" ++ upp ++ "%) | " ++
      "Realized: $" ++ rp ++ " | " ++
      "Win rate: " ++ wr ++ "% (" ++ pyStr tt ++ " trades)\n\n")

/-- One line of the open-positions paragraph (lines 143-147). -/
def posLine (pos : PyVal) : Except PyErr String := do
  let symv ← pyGetD pos "symbol" (.str "?")
  let entry ← pyToFloat (← pyGetD pos "avg_entry_price" (.int 0))
  let lp ← pyGetD pos "live_price" PyVal.none
  let live ← if lp.truthy then pure lp else do
    let c ← pyToFloat (← pyGetD pos "current_price" (.int 0))
    pure (PyVal.float c)
  let liveS ← pyFormatF 2 live
  let pnlPct ← pyGetD pos "live_pnl_percent" (.int 0)
  let pnlS ← pyFormatSF 1 pnlPct
  pure ("  " ++ pyStr symv ++ ": entry $" ++ fixedStr 2 entry ++ ", now $" ++ liveS ++
    " (" ++ pnlS ++ "%)\n")

/-- The open-positions paragraph of the query context (lines 139-148). -/
def positionsSection (positions : Option PyVal) : Except PyErr String := do
  if !(← condDataIn positions) then pure "" else
  match positions with
  | Option.none => pure ""
  | some v => do
    let d ← pySubscr v "data"
    let n ← pyLen d
    if n > 0 then do
      let sl ← pySlice d 5
      let items ← pyIter sl
      let lines ← items.mapM posLine
      pure ("Open positions:\n" ++ String.join lines ++ "\n")
    else pure ""

/-- One line of the recent-decisions paragraph (lines 153-154). -/
def decLine (d : PyVal) : Except PyErr String := do
  let symv ← pyGetD d "symbol" (.str "?")
  let act ← pyGetD d "action" (.str "?")
  let conf ← pyGetD d "confidence" (.str "?")
  let reas ← pyGetD d "reasoning" (.str "")
  pure ("  " ++ pyStr symv ++ ": " ++ pyStr act ++ " conf:" ++ pyStr conf ++ " — " ++
    pyTake (pyStr reas) 120 ++ "\n")

/-- The recent-decisions paragraph of the query context (lines 150-155). -/
def decisionsSection (decisions : Option PyVal) : Except PyErr String := do
  if !(← condDataIn decisions) then pure "" else
  match decisions with
  | Option.none => pure ""
  | some v => do
    let d ← pySubscr v "data"
    let n ← pyLen d
    if n > 0 then do
      let sl ← pySlice d 3
      let items ← pyIter sl
      let lines ← items.mapM decLine
      pure ("Recent decisions:\n" ++ String.join lines ++ "\n")
    else pure ""

/-- The raw-data fallback of `handle_user_query` (line 169):
`portfolio.get(...)` raises AttributeError when the portfolio fetch
returned None. -/
def queryFallback (portfolio : Option PyVal) : Except PyErr String :=
  match portfolio with
  | Option.none => .error .attributeError
  | some v => do
    let d ← pyGetD v "data" (.dict [])
    pure ("**Portfolio:**\n```json\n" ++ pyTake (jsonDumpsIndent2 d) 1500 ++ "\n```")

/-- `handle_user_query(question)` (ollama-bot.py lines 121-169). -/
def handle_user_query (http : List (String × PyVal) → HttpOutcome)
    (backend : String → Nat → Option String) (question : String) :
    Except PyErr String := do
  let portfolio := call_vps_api http "get_portfolio_summary" Option.none
  let positions := call_vps_api http "get_positions" Option.none
  let decisions := call_vps_api http "get_decisions" (some [("limit", PyVal.int 5)])
  let pSec ← portfolioSection portfolio
  let posSec ← positionsSection positions
  let decSec ← decisionsSection decisions
  let context := "TRADING SYSTEM DATA:\n\n" ++ pSec ++ posSec ++ decSec
  let prompt :=
    "You are a helpful trading assistant for the OpenClaw crypto trading system. " ++
    "Answer the user" ++ sglq ++ "s question based on the data below. " ++
    "Be concise (under 1800 chars).\n\n" ++ context ++ "User question: " ++ question
  match call_ollama backend prompt 400 with
  | some answer =>
    if answer != "" then pure (pyTake answer 1900) else queryFallback portfolio
  | Option.none => queryFallback portfolio

-- ── poll_events, one cycle (ollama-bot.py lines 222-245) ──────

/-- The guard `result and "data" in result and len(result["data"]) > 0`
followed by `events = result["data"]` (lines 225-226): ok none when the
guard is false, ok (some events) when it holds, error when evaluating it
raises. -/
def cycleCond (result : PyVal) : Except PyErr (Option (List PyVal)) :=
  if !result.truthy then .ok Option.none
  else do
    let hasData ← pyContains result "data"
    if !hasData then pure Option.none
    else do
      let d ← pySubscr result "data"
      let n ← pyLen d
      if n > 0 then do
        let evs ← pyIter d
        pure (some evs)
      else pure Option.none

/-- The body of `for event in events` (lines 229-234), over events paired
with their position.  `send i` tells whether the i-th Discord send
succeeds; a failed send raises.  Returns the successful deliveries, the
accumulated `posted_ids`, and whether the loop finished without raising. -/
def deliver_loop (backend : String → Nat → Option String) (rc : Bool)
    (send : Nat → Bool) :
    List (Nat × PyVal) → List (Nat × String) → List PyVal →
    List (Nat × String) × List PyVal × Bool
  | [], sent, posted => (sent, posted, true)
  | (i, ev) :: rest, sent, posted =>
    match format_event_with_ollama_v backend ev with
    | .error _ => (sent, posted, false)
    | .ok formatted =>
      if rc then
        if send i then
          match pySubscr ev "id" with
          | .error _ => (sent ++ [(i, formatted)], posted, false)
          | .ok idv => deliver_loop backend rc send rest (sent ++ [(i, formatted)]) (posted ++ [idv])
        else (sent, posted, false)
      else deliver_loop backend rc send rest sent posted

/-- Observable outcome of one polling cycle: the successful deliveries
(position, message), the id batch passed to `mark_events_posted` (none
when that call is never made), and whether the cycle-boundary except
caught an exception. -/
structure CycleResult where
  sent : List (Nat × String)
  ackBatch : Option (List PyVal)
  errored : Bool
deriving Repr

/-- One iteration of the polling loop of `poll_events` (lines 222-245):
fetch events, format and deliver each, and acknowledge the batch of
posted ids when it is non-empty.  Any exception is caught at the cycle
boundary, after which no acknowledgment call is made. -/
def poll_cycle (http : List (String × PyVal) → HttpOutcome)
    (backend : String → Nat → Option String) (rc : Bool) (send : Nat → Bool) :
    CycleResult :=
  match call_vps_api http "get_events" Option.none with
  | Option.none => ⟨[], Option.none, false⟩
  | some result =>
    match cycleCond result with
    | .error _ => ⟨[], Option.none, true⟩
    | .ok Option.none => ⟨[], Option.none, false⟩
    | .ok (some events) =>
      match deliver_loop backend rc send events.enum [] [] with
      | (sent, posted, true) =>
        ⟨sent, if posted.isEmpty then Option.none else some posted, false⟩
      | (sent, _, false) => ⟨sent, Option.none, true⟩

-- ── Concrete fixtures used by witnesses and counterexamples ───

/-- A backend oracle on which the generative formatter always fails. -/
def backendNone : String → Nat → Option String := fun _ _ => Option.none

/-- A backend oracle that always yields the same short reply. -/
def backendHello : String → Nat → Option String := fun _ _ => some "All good"

/-- An HTTP oracle on which every request raises. -/
def httpExn : List (String × PyVal) → HttpOutcome := fun _ => HttpOutcome.exn

/-- The SELL scenario event of the spec. -/
def evC9 : Event :=
  [("id", PyVal.int 1), ("event_type", PyVal.str "SELL"), ("symbol", PyVal.str "BTC"),
   ("metadata", PyVal.dict
     [("price", PyVal.int 65000), ("pnl", PyVal.float ⟨1205, 1⟩),
      ("pnl_percent", PyVal.float ⟨18, 1⟩)])]

/-- A BUY event whose symbol is 600 characters long. -/
def evLong : Event :=
  [("event_type", PyVal.str "BUY"),
   ("symbol", PyVal.str (String.mk (List.replicate 600 'A')))]

/-- An HOURLY_SUMMARY event whose unrealized_pnl metadata value is a
string. -/
def evHourlyBad : Event :=
  [("event_type", PyVal.str "HOURLY_SUMMARY"),
   ("metadata", PyVal.dict [("unrealized_pnl", PyVal.str "x")])]

/-- An event whose metadata is a string that is not valid JSON. -/
def evBadMeta : Event :=
  [("event_type", PyVal.str "WEIRD"), ("metadata", PyVal.str "oops")]

/-- A small well-formed DCA event. -/
def evDCA : Event :=
  [("id", PyVal.int 7), ("event_type", PyVal.str "DCA"), ("symbol", PyVal.str "ETH"),
   ("metadata", PyVal.dict [("price", PyVal.int 10), ("new_avg_entry", PyVal.int 9)])]

/-- Fetched event B (delivered first in the two-event cycle). -/
def evBv : PyVal :=
  PyVal.dict [("id", PyVal.int 1), ("event_type", PyVal.str "SELL"),
    ("symbol", PyVal.str "BTC")]

/-- Fetched event A (its delivery fails in the two-event cycle). -/
def evAv : PyVal :=
  PyVal.dict [("id", PyVal.int 2), ("event_type", PyVal.str "SELL"),
    ("symbol", PyVal.str "ETH")]

/-- API result carrying the two-event cycle [B, A]. -/
def resTwo : PyVal := PyVal.dict [("data", PyVal.list [evBv, evAv])]

/-- API result carrying the single event B. -/
def resOne : PyVal := PyVal.dict [("data", PyVal.list [evBv])]

/-- HTTP oracle: every request succeeds with the two-event cycle [B, A]. -/
def httpTwo : List (String × PyVal) → HttpOutcome :=
  fun _ => HttpOutcome.response 200 (some resTwo) ""

/-- HTTP oracle: every request succeeds with the single event B. -/
def httpOne : List (String × PyVal) → HttpOutcome :=
  fun _ => HttpOutcome.response 200 (some resOne) ""

/-- HTTP oracle: every request succeeds with an empty JSON object. -/
def http200 : List (String × PyVal) → HttpOutcome :=
  fun _ => HttpOutcome.response 200 (some (PyVal.dict [])) ""

/-- Send oracle: the first delivery succeeds, every later one fails. -/
def sendFirstOnly : Nat → Bool := fun i => i == 0

/-- Send oracle: every delivery succeeds. -/
def sendAll : Nat → Bool := fun _ => true

/-- Send oracle: every delivery fails. -/
def sendNone : Nat → Bool := fun _ => false

-- ── Predicates used to state the amended claims ───────────────

/-- Values accepted by a numeric format spec (int, float, bool). -/
def isNumB : PyVal → Bool
  | .int _ => true
  | .float _ => true
  | .bool _ => true
  | _ => false

/-- The value at key k, when present, is numeric. -/
def numAt (xs : List (String × PyVal)) (k : String) : Bool :=
  match dictGet xs k with
  | some v => isNumB v
  | Option.none => true

/-- Metadata acceptable to the HOURLY_SUMMARY template: a dict whose
unrealized_pnl and realized_pnl entries, when present, are numeric. -/
def hourlyOk : PyVal → Bool
  | .dict xs => numAt xs "unrealized_pnl" && numAt xs "realized_pnl"
  | _ => false

/-- The domain on which `format_event_fallback` cannot raise, as a
function of the event_type value and the effective metadata. -/
def metaOkFor (et m : PyVal) : Bool :=
  match et with
  | .str t =>
    if t == "HOURLY_SUMMARY" then hourlyOk m
    else if t == "BUY" || t == "SELL" || t == "DCA" || t == "PARTIAL_EXIT" ||
        t == "CIRCUIT_BREAKER" || t == "ENGINE_START" || t == "ENGINE_STOP" then
      m.isDictB
    else true
  | .list _ => false
  | .dict _ => false
  | _ => true

-- ── Helper lemmas ─────────────────────────────────────────────

theorem len_pos_ne_empty (s : String) (h : 0 < s.length) : s ≠ "" := by
  intro he
  subst he
  simp at h

theorem pyTake_length_le (s : String) (n : Nat) : (pyTake s n).length ≤ n := by
  cases s with
  | mk l => simp [pyTake, String.length, String.toList]

theorem pyTake_ne_empty (s : String) (n : Nat) (hs : s ≠ "") (hn : 0 < n) :
    pyTake s n ≠ "" := by
  intro he
  apply hs
  cases s with
  | mk l =>
    simp only [pyTake, String.toList] at he
    have : l.take n = [] := by
      have := congrArg String.data he
      simpa using this
    rcases List.take_eq_nil_iff.mp this with h1 | h2
    · omega
    · simp [h2]

theorem pyFormatF_ok (prec : Nat) (v : PyVal) (h : isNumB v = true) :
    ∃ s, pyFormatF prec v = Except.ok s := by
  cases v <;> simp [isNumB] at h <;> exact ⟨_, rfl⟩

theorem dget_num (xs : List (String × PyVal)) (k : String) (dflt : PyVal)
    (hd : isNumB dflt = true) (h : numAt xs k = true) :
    isNumB (dget xs k dflt) = true := by
  unfold numAt at h
  unfold dget
  cases hg : dictGet xs k with
  | none => simpa using hd
  | some v => rw [hg] at h; simpa using h

theorem tmplBUY_ok (sym : PyVal) (xs : List (String × PyVal)) :
    ∃ s, tmplBUY sym (.dict xs) = Except.ok s := ⟨_, rfl⟩

theorem tmplSELL_ok (sym : PyVal) (xs : List (String × PyVal)) :
    ∃ s, tmplSELL sym (.dict xs) = Except.ok s := ⟨_, rfl⟩

theorem tmplDCA_ok (sym : PyVal) (xs : List (String × PyVal)) :
    ∃ s, tmplDCA sym (.dict xs) = Except.ok s := ⟨_, rfl⟩

theorem tmplPartExit_ok (sym : PyVal) (xs : List (String × PyVal)) :
    ∃ s, tmplPartExit sym (.dict xs) = Except.ok s := ⟨_, rfl⟩

theorem tmplCircuitBreaker_ok (xs : List (String × PyVal)) :
    ∃ s, tmplCircuitBreaker (.dict xs) = Except.ok s := ⟨_, rfl⟩

theorem tmplEngineStart_ok (xs : List (String × PyVal)) :
    ∃ s, tmplEngineStart (.dict xs) = Except.ok s := ⟨_, rfl⟩

theorem tmplEngineStop_ok (xs : List (String × PyVal)) :
    ∃ s, tmplEngineStop (.dict xs) = Except.ok s := ⟨_, rfl⟩

theorem tmplHourly_ok (xs : List (String × PyVal)) (h : hourlyOk (.dict xs) = true) :
    ∃ s, tmplHourly (.dict xs) = Except.ok s := by
  rw [show hourlyOk (.dict xs) = (numAt xs "unrealized_pnl" && numAt xs "realized_pnl") from rfl,
    Bool.and_eq_true] at h
  obtain ⟨u, hu⟩ := pyFormatF_ok 2 (dget xs "unrealized_pnl" (.int 0))
    (dget_num xs "unrealized_pnl" (.int 0) rfl h.1)
  obtain ⟨r, hr⟩ := pyFormatF_ok 2 (dget xs "realized_pnl" (.int 0))
    (dget_num xs "realized_pnl" (.int 0) rfl h.2)
  refine ⟨"📊 **Hourly** | " ++ pyStr (dget xs "open_positions" (.int 0)) ++
    " positions | P&L: $" ++ u ++ " unrealized, $" ++ r ++ " realized", ?_⟩
  show (do
    let uu ← pyFormatF 2 (dget xs "unrealized_pnl" (.int 0))
    let rr ← pyFormatF 2 (dget xs "realized_pnl" (.int 0))
    pure ("📊 **Hourly** | " ++ pyStr (dget xs "open_positions" (.int 0)) ++
      " positions | P&L: $" ++ uu ++ " unrealized, $" ++ rr ++ " realized") :
    Except PyErr String) = _
  rw [hu, hr]
  rfl

theorem exc_bind_ok {α β : Type} (x : Except PyErr α) (f : α → Except PyErr β) (b : β)
    (h : (x >>= f) = Except.ok b) : ∃ a, x = Except.ok a ∧ f a = Except.ok b := by
  cases x with
  | error e => exact Except.noConfusion h
  | ok a => exact ⟨a, rfl, h⟩

theorem tmplBUY_ne (sym meta : PyVal) (s : String) (h : tmplBUY sym meta = Except.ok s) :
    0 < s.length := by
  unfold tmplBUY at h
  split at h <;> first
    | exact Except.noConfusion h
    | (injection h with h
       subst h
       simp only [String.length_append]
       have h1 : 0 < ("🟢 **BUY** ").length := by decide
       omega)

theorem tmplSELL_ne (sym meta : PyVal) (s : String) (h : tmplSELL sym meta = Except.ok s) :
    0 < s.length := by
  unfold tmplSELL at h
  split at h <;> first
    | exact Except.noConfusion h
    | (injection h with h
       subst h
       simp only [String.length_append]
       have h1 : 0 < ("🔴 **SELL** ").length := by decide
       omega)

theorem tmplDCA_ne (sym meta : PyVal) (s : String) (h : tmplDCA sym meta = Except.ok s) :
    0 < s.length := by
  unfold tmplDCA at h
  split at h <;> first
    | exact Except.noConfusion h
    | (injection h with h
       subst h
       simp only [String.length_append]
       have h1 : 0 < ("🔵 **DCA** ").length := by decide
       omega)

theorem tmplPartExit_ne (sym meta : PyVal) (s : String)
    (h : tmplPartExit sym meta = Except.ok s) : 0 < s.length := by
  unfold tmplPartExit at h
  split at h <;> first
    | exact Except.noConfusion h
    | (injection h with h
       subst h
       simp only [String.length_append]
       have h1 : 0 < ("💰 **PARTIAL EXIT** ").length := by decide
       omega)

theorem tmplCircuitBreaker_ne (meta : PyVal) (s : String)
    (h : tmplCircuitBreaker meta = Except.ok s) : 0 < s.length := by
  unfold tmplCircuitBreaker at h
  split at h <;> first
    | exact Except.noConfusion h
    | (injection h with h
       subst h
       simp only [String.length_append]
       have h1 : 0 < ("⚠️ **CIRCUIT BREAKER** | ").length := by decide
       omega)

theorem tmplEngineStart_ne (meta : PyVal) (s : String)
    (h : tmplEngineStart meta = Except.ok s) : 0 < s.length := by
  unfold tmplEngineStart at h
  split at h <;> first
    | exact Except.noConfusion h
    | (injection h with h
       subst h
       simp only [String.length_append]
       have h1 : 0 < ("🚀 **Engine Started** | ").length := by decide
       omega)

theorem tmplEngineStop_ne (meta : PyVal) (s : String)
    (h : tmplEngineStop meta = Except.ok s) : 0 < s.length := by
  unfold tmplEngineStop at h
  split at h <;> first
    | exact Except.noConfusion h
    | (injection h with h
       subst h
       simp only [String.length_append]
       have h1 : 0 < ("🛑 **Engine Stopped** | ").length := by decide
       omega)

theorem tmplHourly_ne (meta : PyVal) (s : String) (h : tmplHourly meta = Except.ok s) :
    0 < s.length := by
  cases meta with
  | dict xs =>
    obtain ⟨u, hu, h2⟩ := exc_bind_ok _ _ _ h
    obtain ⟨r, hr, h3⟩ := exc_bind_ok _ _ _ h2
    injection h3 with h3
    subst h3
    simp only [String.length_append]
    have h1 : 0 < ("📊 **Hourly** | ").length := by decide
    omega
  | none => exact Except.noConfusion h
  | bool b => exact Except.noConfusion h
  | int n => exact Except.noConfusion h
  | float f => exact Except.noConfusion h
  | str t => exact Except.noConfusion h
  | list l => exact Except.noConfusion h

theorem genericTmpl_ne (et sym meta : PyVal) (s : String)
    (h : genericTmpl et sym meta = Except.ok s) : 0 < s.length := by
  unfold genericTmpl at h
  injection h with h
  subst h
  simp only [String.length_append]
  have h1 : 0 < ("📌 **").length := by decide
  omega

theorem fallback_ok_len (event : Event) (s : String)
    (h : format_event_fallback event = Except.ok s) : 0 < s.length := by
  unfold format_event_fallback at h
  split at h
  · exact Except.noConfusion h
  · exact Except.noConfusion h
  · split at h
    · exact tmplBUY_ne _ _ _ h
    · split at h
      · exact tmplSELL_ne _ _ _ h
      · split at h
        · exact tmplDCA_ne _ _ _ h
        · split at h
          · exact tmplPartExit_ne _ _ _ h
          · split at h
            · exact tmplCircuitBreaker_ne _ _ h
            · split at h
              · exact tmplHourly_ne _ _ h
              · split at h
                · exact tmplEngineStart_ne _ _ h
                · split at h
                  · exact tmplEngineStop_ne _ _ h
                  · exact genericTmpl_ne _ _ _ _ h
  · exact genericTmpl_ne _ _ _ _ h

theorem fallback_ok_ne (event : Event) (s : String)
    (h : format_event_fallback event = Except.ok s) : s ≠ "" :=
  len_pos_ne_empty s (fallback_ok_len event s h)

theorem c3_core (event : Event)
    (h : metaOkFor (eget event "event_type" (PyVal.str "UNKNOWN")) (effMeta event) = true) :
    ∃ s, format_event_fallback event = Except.ok s := by
  unfold format_event_fallback
  cases het : eget event "event_type" (PyVal.str "UNKNOWN") with
  | list l => rw [het] at h; exact Bool.noConfusion h
  | dict d => rw [het] at h; exact Bool.noConfusion h
  | none => exact ⟨_, rfl⟩
  | bool b => exact ⟨_, rfl⟩
  | int n => exact ⟨_, rfl⟩
  | float f => exact ⟨_, rfl⟩
  | str t =>
    rw [het] at h
    show ∃ s,
      (if t == "BUY" then tmplBUY (eget event "symbol" (PyVal.str "")) (effMeta event)
       else if t == "SELL" then tmplSELL (eget event "symbol" (PyVal.str "")) (effMeta event)
       else if t == "DCA" then tmplDCA (eget event "symbol" (PyVal.str "")) (effMeta event)
       else if t == "PARTIAL_EXIT" then
         tmplPartExit (eget event "symbol" (PyVal.str "")) (effMeta event)
       else if t == "CIRCUIT_BREAKER" then tmplCircuitBreaker (effMeta event)
       else if t == "HOURLY_SUMMARY" then tmplHourly (effMeta event)
       else if t == "ENGINE_START" then tmplEngineStart (effMeta event)
       else if t == "ENGINE_STOP" then tmplEngineStop (effMeta event)
       else genericTmpl (PyVal.str t) (eget event "symbol" (PyVal.str "")) (effMeta event)) =
      Except.ok s
    by_cases h1 : t = "BUY"
    · subst h1
      replace h : (effMeta event).isDictB = true := h
      cases hm : effMeta event with
      | dict xs =>
        show ∃ s, tmplBUY (eget event "symbol" (PyVal.str "")) (PyVal.dict xs) = Except.ok s
        exact tmplBUY_ok _ xs
      | none => rw [hm] at h; exact Bool.noConfusion h
      | bool b => rw [hm] at h; exact Bool.noConfusion h
      | int n => rw [hm] at h; exact Bool.noConfusion h
      | float f => rw [hm] at h; exact Bool.noConfusion h
      | str u => rw [hm] at h; exact Bool.noConfusion h
      | list l => rw [hm] at h; exact Bool.noConfusion h
    · rw [if_neg (by simp [h1])]
      by_cases h2 : t = "SELL"
      · subst h2
        replace h : (effMeta event).isDictB = true := h
        cases hm : effMeta event with
        | dict xs =>
          show ∃ s, tmplSELL (eget event "symbol" (PyVal.str "")) (PyVal.dict xs) = Except.ok s
          exact tmplSELL_ok _ xs
        | none => rw [hm] at h; exact Bool.noConfusion h
        | bool b => rw [hm] at h; exact Bool.noConfusion h
        | int n => rw [hm] at h; exact Bool.noConfusion h
        | float f => rw [hm] at h; exact Bool.noConfusion h
        | str u => rw [hm] at h; exact Bool.noConfusion h
        | list l => rw [hm] at h; exact Bool.noConfusion h
      · rw [if_neg (by simp [h2])]
        by_cases h3 : t = "DCA"
        · subst h3
          replace h : (effMeta event).isDictB = true := h
          cases hm : effMeta event with
          | dict xs =>
            show ∃ s, tmplDCA (eget event "symbol" (PyVal.str "")) (PyVal.dict xs) = Except.ok s
            exact tmplDCA_ok _ xs
          | none => rw [hm] at h; exact Bool.noConfusion h
          | bool b => rw [hm] at h; exact Bool.noConfusion h
          | int n => rw [hm] at h; exact Bool.noConfusion h
          | float f => rw [hm] at h; exact Bool.noConfusion h
          | str u => rw [hm] at h; exact Bool.noConfusion h
          | list l => rw [hm] at h; exact Bool.noConfusion h
        · rw [if_neg (by simp [h3])]
          by_cases h4 : t = "PARTIAL_EXIT"
          · subst h4
            replace h : (effMeta event).isDictB = true := h
            cases hm : effMeta event with
            | dict xs =>
              show ∃ s,
                tmplPartExit (eget event "symbol" (PyVal.str "")) (PyVal.dict xs) = Except.ok s
              exact tmplPartExit_ok _ xs
            | none => rw [hm] at h; exact Bool.noConfusion h
            | bool b => rw [hm] at h; exact Bool.noConfusion h
            | int n => rw [hm] at h; exact Bool.noConfusion h
            | float f => rw [hm] at h; exact Bool.noConfusion h
            | str u => rw [hm] at h; exact Bool.noConfusion h
            | list l => rw [hm] at h; exact Bool.noConfusion h
          · rw [if_neg (by simp [h4])]
            by_cases h5 : t = "CIRCUIT_BREAKER"
            · subst h5
              replace h : (effMeta event).isDictB = true := h
              cases hm : effMeta event with
              | dict xs =>
                show ∃ s, tmplCircuitBreaker (PyVal.dict xs) = Except.ok s
                exact tmplCircuitBreaker_ok xs
              | none => rw [hm] at h; exact Bool.noConfusion h
              | bool b => rw [hm] at h; exact Bool.noConfusion h
              | int n => rw [hm] at h; exact Bool.noConfusion h
              | float f => rw [hm] at h; exact Bool.noConfusion h
              | str u => rw [hm] at h; exact Bool.noConfusion h
              | list l => rw [hm] at h; exact Bool.noConfusion h
            · rw [if_neg (by simp [h5])]
              by_cases h6 : t = "HOURLY_SUMMARY"
              · subst h6
                replace h : hourlyOk (effMeta event) = true := h
                cases hm : effMeta event with
                | dict xs =>
                  rw [hm] at h
                  show ∃ s, tmplHourly (PyVal.dict xs) = Except.ok s
                  exact tmplHourly_ok xs h
                | none => rw [hm] at h; exact Bool.noConfusion h
                | bool b => rw [hm] at h; exact Bool.noConfusion h
                | int n => rw [hm] at h; exact Bool.noConfusion h
                | float f => rw [hm] at h; exact Bool.noConfusion h
                | str u => rw [hm] at h; exact Bool.noConfusion h
                | list l => rw [hm] at h; exact Bool.noConfusion h
              · rw [if_neg (by simp [h6])]
                by_cases h7 : t = "ENGINE_START"
                · subst h7
                  replace h : (effMeta event).isDictB = true := h
                  cases hm : effMeta event with
                  | dict xs =>
                    show ∃ s, tmplEngineStart (PyVal.dict xs) = Except.ok s
                    exact tmplEngineStart_ok xs
                  | none => rw [hm] at h; exact Bool.noConfusion h
                  | bool b => rw [hm] at h; exact Bool.noConfusion h
                  | int n => rw [hm] at h; exact Bool.noConfusion h
                  | float f => rw [hm] at h; exact Bool.noConfusion h
                  | str u => rw [hm] at h; exact Bool.noConfusion h
                  | list l => rw [hm] at h; exact Bool.noConfusion h
                · rw [if_neg (by simp [h7])]
                  by_cases h8 : t = "ENGINE_STOP"
                  · subst h8
                    replace h : (effMeta event).isDictB = true := h
                    cases hm : effMeta event with
                    | dict xs =>
                      show ∃ s, tmplEngineStop (PyVal.dict xs) = Except.ok s
                      exact tmplEngineStop_ok xs
                    | none => rw [hm] at h; exact Bool.noConfusion h
                    | bool b => rw [hm] at h; exact Bool.noConfusion h
                    | int n => rw [hm] at h; exact Bool.noConfusion h
                    | float f => rw [hm] at h; exact Bool.noConfusion h
                    | str u => rw [hm] at h; exact Bool.noConfusion h
                    | list l => rw [hm] at h; exact Bool.noConfusion h
                  · rw [if_neg (by simp [h8])]
                    exact ⟨_, rfl⟩

theorem deliver_loop_mono (backend : String → Nat → Option String) (rc : Bool)
    (send : Nat → Bool) (l : List (Nat × PyVal)) :
    ∀ sent posted sent2 posted2 ok,
      deliver_loop backend rc send l sent posted = (sent2, posted2, ok) →
      (∀ x, x ∈ sent → x ∈ sent2) ∧ (∀ y, y ∈ posted → y ∈ posted2) := by
  induction l with
  | nil =>
    intro sent posted sent2 posted2 ok h
    simp only [deliver_loop, Prod.mk.injEq] at h
    obtain ⟨rfl, rfl, _⟩ := h
    exact ⟨fun x hx => hx, fun y hy => hy⟩
  | cons hd rest ih =>
    obtain ⟨i, ev⟩ := hd
    intro sent posted sent2 posted2 ok h
    rw [deliver_loop] at h
    cases hf : format_event_with_ollama_v backend ev with
    | error e =>
      rw [hf] at h
      simp only [Prod.mk.injEq] at h
      obtain ⟨rfl, rfl, _⟩ := h
      exact ⟨fun x hx => hx, fun y hy => hy⟩
    | ok fmt =>
      rw [hf] at h
      cases rc with
      | false =>
        simp only [Bool.false_eq_true, if_false] at h
        exact ih sent posted sent2 posted2 ok h
      | true =>
        simp only [if_true] at h
        cases hsend : send i with
        | false =>
          rw [hsend] at h
          simp only [Bool.false_eq_true, if_false, Prod.mk.injEq] at h
          obtain ⟨rfl, rfl, _⟩ := h
          exact ⟨fun x hx => hx, fun y hy => hy⟩
        | true =>
          rw [hsend] at h
          simp only [if_true] at h
          cases hs : pySubscr ev "id" with
          | error e =>
            rw [hs] at h
            simp only [Prod.mk.injEq] at h
            obtain ⟨rfl, rfl, _⟩ := h
            exact ⟨fun x hx => List.mem_append_left _ hx, fun y hy => hy⟩
          | ok idv =>
            rw [hs] at h
            obtain ⟨m1, m2⟩ := ih _ _ _ _ _ h
            exact ⟨fun x hx => m1 x (List.mem_append_left _ hx),
              fun y hy => m2 y (List.mem_append_left _ hy)⟩

theorem deliver_loop_sound (backend : String → Nat → Option String) (rc : Bool)
    (send : Nat → Bool) (l : List (Nat × PyVal)) :
    ∀ sent posted sent2 posted2 ok,
      deliver_loop backend rc send l sent posted = (sent2, posted2, ok) →
      ∀ idv, idv ∈ posted2 → idv ∈ posted ∨
        ∃ i ev msg, (i, ev) ∈ l ∧ pySubscr ev "id" = Except.ok idv ∧
          format_event_with_ollama_v backend ev = Except.ok msg ∧ (i, msg) ∈ sent2 := by
  induction l with
  | nil =>
    intro sent posted sent2 posted2 ok h idv hid
    simp only [deliver_loop, Prod.mk.injEq] at h
    obtain ⟨rfl, rfl, _⟩ := h
    exact Or.inl hid
  | cons hd rest ih =>
    obtain ⟨i, ev⟩ := hd
    intro sent posted sent2 posted2 ok h idv hid
    rw [deliver_loop] at h
    cases hf : format_event_with_ollama_v backend ev with
    | error e =>
      rw [hf] at h
      simp only [Prod.mk.injEq] at h
      obtain ⟨rfl, rfl, _⟩ := h
      exact Or.inl hid
    | ok fmt =>
      rw [hf] at h
      cases rc with
      | false =>
        simp only [Bool.false_eq_true, if_false] at h
        rcases ih sent posted sent2 posted2 ok h idv hid with hin | ⟨j, ev2, msg, hm, hsub, hfm, hs⟩
        · exact Or.inl hin
        · exact Or.inr ⟨j, ev2, msg, List.mem_cons_of_mem _ hm, hsub, hfm, hs⟩
      | true =>
        simp only [if_true] at h
        cases hsend : send i with
        | false =>
          rw [hsend] at h
          simp only [Bool.false_eq_true, if_false, Prod.mk.injEq] at h
          obtain ⟨rfl, rfl, _⟩ := h
          exact Or.inl hid
        | true =>
          rw [hsend] at h
          simp only [if_true] at h
          cases hs : pySubscr ev "id" with
          | error e =>
            rw [hs] at h
            simp only [Prod.mk.injEq] at h
            obtain ⟨rfl, rfl, _⟩ := h
            exact Or.inl hid
          | ok idv0 =>
            rw [hs] at h
            rcases ih _ _ _ _ _ h idv hid with hin | ⟨j, ev2, msg, hm, hsub, hfm, hsent⟩
            · rcases List.mem_append.mp hin with hin2 | hin3
              · exact Or.inl hin2
              · -- idv = idv0, delivered at position i
                have : idv = idv0 := by simpa using hin3
                subst this
                refine Or.inr ⟨i, ev, fmt, List.mem_cons_self _ _, hs, hf, ?_⟩
                exact (deliver_loop_mono backend true send rest _ _ _ _ _ h).1 _
                  (List.mem_append_right _ (by simp))
            · exact Or.inr ⟨j, ev2, msg, List.mem_cons_of_mem _ hm, hsub, hfm, hsent⟩

theorem deliver_loop_all (backend : String → Nat → Option String)
    (send : Nat → Bool) (l : List (Nat × PyVal)) :
    ∀ sent posted sent2 posted2,
      deliver_loop backend true send l sent posted = (sent2, posted2, true) →
      ∀ i ev, (i, ev) ∈ l → send i = true ∧
        ∃ msg idv, format_event_with_ollama_v backend ev = Except.ok msg ∧
          (i, msg) ∈ sent2 ∧ pySubscr ev "id" = Except.ok idv ∧ idv ∈ posted2 := by
  induction l with
  | nil =>
    intro sent posted sent2 posted2 h i ev hm
    exact absurd hm (List.not_mem_nil _)
  | cons hd rest ih =>
    obtain ⟨j, ev0⟩ := hd
    intro sent posted sent2 posted2 h i ev hm
    rw [deliver_loop] at h
    cases hf : format_event_with_ollama_v backend ev0 with
    | error e =>
      rw [hf] at h
      simp only [Prod.mk.injEq] at h
      exact absurd h.2.2 (by simp)
    | ok fmt =>
      rw [hf] at h
      simp only [if_true] at h
      cases hsend : send j with
      | false =>
        rw [hsend] at h
        simp only [Bool.false_eq_true, if_false, Prod.mk.injEq] at h
        exact absurd h.2.2 (by simp)
      | true =>
        rw [hsend] at h
        simp only [if_true] at h
        cases hs : pySubscr ev0 "id" with
        | error e =>
          rw [hs] at h
          simp only [Prod.mk.injEq] at h
          exact absurd h.2.2 (by simp)
        | ok idv0 =>
          rw [hs] at h
          rcases List.mem_cons.mp hm with heq | htail
          · injection heq with h1 h2
            subst h1
            subst h2
            obtain ⟨m1, m2⟩ := deliver_loop_mono backend true send rest _ _ _ _ _ h
            refine ⟨hsend, fmt, idv0, hf, ?_, hs, ?_⟩
            · exact m1 _ (List.mem_append_right _ (by simp))
            · exact m2 _ (List.mem_append_right _ (by simp))
          · exact ih _ _ _ _ h i ev htail

-- ── Claim theorems ────────────────────────────────────────────

/-- C9: for the event with id 1, event_type SELL, symbol BTC and metadata
price 65000, pnl 120.5, pnl_percent 1.8, with the generative backend
yielding no result, the event path falls back to the Deterministic
Formatter and returns exactly the expected SELL message. -/
theorem c9_sell_scenario :
    format_event_with_ollama backendNone evC9 =
      Except.ok "🔴 **SELL** BTC @ $65000 | P&L: $120.5 (1.8%)" ∧
    format_event_fallback evC9 =
      Except.ok "🔴 **SELL** BTC @ $65000 | P&L: $120.5 (1.8%)" :=
  ⟨rfl, rfl⟩

/-- C6: if the Generative Formatter yields no result, the output of the
event path of the Formatting Pipeline is exactly the output of the
Deterministic Formatter on the same event. -/
theorem c6_fallback_equivalence (backend : String → Nat → Option String) (event : Event)
    (h : ∀ p n, backend p n = Option.none) :
    format_event_with_ollama backend event = format_event_fallback event := by
  unfold format_event_with_ollama call_ollama
  rw [h]
  rfl

/-- Witness for C6 at a concrete event and the always-failing backend. -/
theorem c6_witness :
    format_event_with_ollama backendNone evDCA = format_event_fallback evDCA :=
  c6_fallback_equivalence backendNone evDCA (fun _ _ => rfl)

/-- C10: the deterministic fallback formatter is a pure function of the
event alone (it is embedded without any oracle for time, network or
mutable state): two evaluations on equal events give equal outputs. -/
theorem c10_determinism (e1 e2 : Event) (h : e1 = e2) :
    format_event_fallback e1 = format_event_fallback e2 := by
  rw [h]

/-- Witness for C10 at a concrete event. -/
theorem c10_witness :
    format_event_fallback evBadMeta = format_event_fallback evBadMeta :=
  c10_determinism evBadMeta evBadMeta rfl

/-- C8: call_vps_api returns the parsed JSON body exactly on a 200
response whose body parses, and None in every other case (non-200 status,
transport exception, body parse failure); by type it never raises, and it
issues exactly one request (the embedding consults the HTTP oracle once,
at the single request body it builds). -/
theorem c8_api_totality (http : List (String × PyVal) → HttpOutcome)
    (action : String) (extra : Option (List (String × PyVal))) :
    (∀ j t, http (requestBody action extra) = HttpOutcome.response 200 (some j) t →
      call_vps_api http action extra = some j) ∧
    ((∀ j t, http (requestBody action extra) ≠ HttpOutcome.response 200 (some j) t) →
      call_vps_api http action extra = Option.none) := by
  constructor
  · intro j t hr
    unfold call_vps_api call_vps_api_try
    rw [hr]
    rfl
  · intro hne
    unfold call_vps_api call_vps_api_try
    cases ho : http (requestBody action extra) with
    | exn => rfl
    | response status body txt =>
      by_cases hs : status = 200
      · subst hs
        cases body with
        | none => rfl
        | some j => exact absurd ho (hne j txt)
      · have hb : (status == 200) = false := by simpa using hs
        simp [hb]

/-- Witness for C8: a 200 response with body the empty JSON object is
returned parsed. -/
theorem c8_witness :
    call_vps_api http200 "get_events" Option.none = some (PyVal.dict []) :=
  (c8_api_totality http200 "get_events" Option.none).1 (PyVal.dict []) "" rfl

/-- C2 (code bug): when the portfolio fetch is unavailable (every API
request fails, so call_vps_api returns None) and the generative backend
also fails, handle_user_query raises AttributeError in its raw-data
fallback (portfolio.get on None) instead of returning a reply. -/
theorem c2_code_evaluation :
    handle_user_query httpExn backendNone "how is the portfolio doing" =
      Except.error PyErr.attributeError := rfl

/-- C7 counterexample: for the event whose metadata is the undecodable
string "oops", the deterministic formatter does not keep the string: the
effective metadata becomes the empty dict, and the rendered message shows
the empty dict, with the original string gone. -/
theorem c7_counterexample :
    effMeta evBadMeta = PyVal.dict [] ∧
    format_event_fallback evBadMeta = Except.ok "📌 **WEIRD**  | \x7b\x7d" :=
  ⟨rfl, rfl⟩

/-- C7 (amended): when metadata arrives as a string that fails to decode,
`format_event_with_ollama` keeps the original encoded string (it is the
value rendered into the generative prompt), while `format_event_fallback`
discards it, replacing it by the empty dict. -/
theorem c7_amended_theorem (event : Event) (s : String)
    (h1 : eget event "metadata" PyVal.none = PyVal.str s)
    (h2 : json_loads s = Option.none) :
    prompt_meta event = PyVal.str s ∧ effMeta event = PyVal.dict [] := by
  constructor
  · unfold prompt_meta
    rw [h1]
    show (match json_loads s with
      | some v => v
      | Option.none => PyVal.str s) = PyVal.str s
    rw [h2]
  · unfold effMeta
    rw [h1]
    show (match json_loads s with
      | some v => if v.truthy then v else PyVal.dict []
      | Option.none => PyVal.dict []) = PyVal.dict []
    rw [h2]

/-- Witness for C7 at the concrete undecodable metadata string. -/
theorem c7_witness :
    prompt_meta evBadMeta = PyVal.str "oops" ∧ effMeta evBadMeta = PyVal.dict [] :=
  c7_amended_theorem evBadMeta "oops" rfl rfl

set_option maxRecDepth 4000 in
/-- C4 counterexample: a BUY event with a 600-character symbol makes the
fallback branch of the event path return a message longer than 500
characters (no truncation is applied in format_event_fallback). -/
theorem c4_counterexample :
    ∃ s, format_event_with_ollama backendNone evLong = Except.ok s ∧ 500 < s.length := by
  refine ⟨_, rfl, ?_⟩
  decide

/-- C4 (amended): every string the event path returns is non-empty, and
is either at most 500 characters (always the case on the
generative-success branch, which truncates) or exactly the output of the
deterministic fallback, which applies no truncation and can be longer. -/
theorem c4_amended_theorem (backend : String → Nat → Option String) (event : Event)
    (s : String) (h : format_event_with_ollama backend event = Except.ok s) :
    s ≠ "" ∧ (s.length ≤ 500 ∨ format_event_fallback event = Except.ok s) := by
  unfold format_event_with_ollama at h
  cases hc : call_ollama backend (ollama_prompt event) 200 with
  | none =>
    rw [hc] at h
    exact ⟨fallback_ok_ne _ _ h, Or.inr h⟩
  | some r =>
    rw [hc] at h
    replace h : (if (r != "") = true then Except.ok (pyTake r 500)
        else format_event_fallback event) = Except.ok s := h
    by_cases hr : r = ""
    · subst hr
      rw [if_neg (by simp)] at h
      exact ⟨fallback_ok_ne _ _ h, Or.inr h⟩
    · rw [if_pos (by simp [hr])] at h
      injection h with h
      subst h
      refine ⟨pyTake_ne_empty r 500 hr (by omega), Or.inl ?_⟩
      have := pyTake_length_le r 500
      omega

/-- Witness for C4 at a concrete event and a succeeding backend. -/
theorem c4_witness :
    "All good" ≠ "" ∧
    ("All good".length ≤ 500 ∨ format_event_fallback evDCA = Except.ok "All good") :=
  c4_amended_theorem backendHello evDCA "All good" rfl

/-- C3 counterexample: an HOURLY_SUMMARY event whose unrealized_pnl
metadata value is a string makes format_event_fallback raise (the .2f
format spec rejects a str), so the formatter is not total. -/
theorem c3_counterexample :
    format_event_fallback evHourlyBad = Except.error PyErr.valueError := rfl

/-- C3 (amended): format_event_fallback returns a string without raising
for every event in the domain described by metaOkFor: event_type is not
an unhashable value (list/dict); if event_type is one of the eight known
template types the effective metadata is a dict; and for HOURLY_SUMMARY
its unrealized_pnl and realized_pnl entries, when present, are numeric.
Outside this domain the formatter can raise, as the counterexample
shows. -/
theorem c3_amended_theorem (event : Event)
    (h : metaOkFor (eget event "event_type" (PyVal.str "UNKNOWN")) (effMeta event) = true) :
    ∃ s, format_event_fallback event = Except.ok s :=
  c3_core event h

/-- Witness for C3 at a concrete well-formed event. -/
theorem c3_witness : ∃ s, format_event_fallback evDCA = Except.ok s :=
  c3_amended_theorem evDCA rfl

/-- C5: acknowledgment soundness: whenever a polling cycle passes a batch
of ids to mark_events_posted, every id in the batch is the id of a
fetched event whose formatted message was delivered to the sink earlier
in that same cycle. -/
theorem c5_ack_soundness (http : List (String × PyVal) → HttpOutcome)
    (backend : String → Nat → Option String) (rc : Bool) (send : Nat → Bool)
    (result : PyVal) (events : List PyVal)
    (hfetch : call_vps_api http "get_events" Option.none = some result)
    (hcond : cycleCond result = Except.ok (some events))
    (ids : List PyVal)
    (hack : (poll_cycle http backend rc send).ackBatch = some ids)
    (idv : PyVal) (hid : idv ∈ ids) :
    ∃ i ev msg, (i, ev) ∈ events.enum ∧ pySubscr ev "id" = Except.ok idv ∧
      format_event_with_ollama_v backend ev = Except.ok msg ∧
      (i, msg) ∈ (poll_cycle http backend rc send).sent := by
  unfold poll_cycle at hack ⊢
  simp only [hfetch, hcond] at hack ⊢
  rcases hdl : deliver_loop backend rc send events.enum [] [] with ⟨sent2, posted2, ok⟩
  rw [hdl] at hack
  cases ok with
  | false => exact absurd hack (by simp)
  | true =>
    replace hack : (if posted2.isEmpty = true then Option.none else some posted2) =
        some ids := hack
    by_cases he : posted2.isEmpty = true
    · rw [if_pos he] at hack
      exact Option.noConfusion hack
    · rw [if_neg he] at hack
      injection hack with hack
      subst hack
      rcases deliver_loop_sound backend rc send events.enum [] [] sent2 posted2 true hdl idv hid
        with hin | ⟨i, ev, msg, hm, hsub, hfm, hsent⟩
      · exact absurd hin (List.not_mem_nil _)
      · exact ⟨i, ev, msg, hm, hsub, hfm, hsent⟩

/-- Witness for C5: a one-event cycle in which everything succeeds
acknowledges exactly the delivered id 1. -/
theorem c5_witness :
    ∃ i ev msg, (i, ev) ∈ (List.enum [evBv]) ∧
      pySubscr ev "id" = Except.ok (PyVal.int 1) ∧
      format_event_with_ollama_v backendNone ev = Except.ok msg ∧
      (i, msg) ∈ (poll_cycle httpOne backendNone true sendAll).sent :=
  c5_ack_soundness httpOne backendNone true sendAll resOne [evBv] rfl rfl
    [PyVal.int 1] rfl (PyVal.int 1) (List.mem_singleton.mpr rfl)

/-- C1 (amended): only ids of delivered events are accumulated into
posted_ids, but a single delivery failure aborts the whole cycle at the
cycle-boundary exception handler, so no acknowledgment call is made that
cycle at all (the already-delivered ids of the cycle stay unacknowledged
and the events are refetched).  Only when the loop finishes without an
exception is the batch sent, and then it contains exactly the ids of the
delivered events: every fetched event was delivered and its id is in the
batch. -/
theorem c1_amended_theorem (http : List (String × PyVal) → HttpOutcome)
    (backend : String → Nat → Option String) (send : Nat → Bool)
    (result : PyVal) (events : List PyVal)
    (hfetch : call_vps_api http "get_events" Option.none = some result)
    (hcond : cycleCond result = Except.ok (some events)) :
    (∀ k ev, (k, ev) ∈ events.enum → send k = false →
      (poll_cycle http backend true send).ackBatch = Option.none) ∧
    (∀ ids, (poll_cycle http backend true send).ackBatch = some ids →
      ∀ i ev, (i, ev) ∈ events.enum → send i = true ∧
        ∃ msg idv, format_event_with_ollama_v backend ev = Except.ok msg ∧
          (i, msg) ∈ (poll_cycle http backend true send).sent ∧
          pySubscr ev "id" = Except.ok idv ∧ idv ∈ ids) := by
  unfold poll_cycle
  simp only [hfetch, hcond]
  rcases hdl : deliver_loop backend true send events.enum [] [] with ⟨sent2, posted2, ok⟩
  cases ok with
  | false =>
    constructor
    · intro _ _ _ _
      rfl
    · intro ids hack
      exact Option.noConfusion hack
  | true =>
    constructor
    · intro k ev hm hsf
      have h1 := (deliver_loop_all backend send events.enum [] [] sent2 posted2 hdl k ev hm).1
      rw [hsf] at h1
      exact Bool.noConfusion h1
    · intro ids hack i ev hm
      replace hack : (if posted2.isEmpty = true then Option.none else some posted2) =
          some ids := hack
      by_cases he : posted2.isEmpty = true
      · rw [if_pos he] at hack
        exact Option.noConfusion hack
      · rw [if_neg he] at hack
        injection hack with hack
        subst hack
        obtain ⟨hsend, msg, idv, hfm, hsent, hsub, hpost⟩ :=
          deliver_loop_all backend send events.enum [] [] sent2 posted2 hdl i ev hm
        exact ⟨hsend, msg, idv, hfm, hsent, hsub, hpost⟩

/-- Witness for C1 (amended): when the only delivery of a one-event cycle
fails, no acknowledgment call is made. -/
theorem c1_witness :
    (poll_cycle httpOne backendNone true sendNone).ackBatch = Option.none :=
  (c1_amended_theorem httpOne backendNone sendNone resOne [evBv] rfl rfl).1 0 evBv
    (List.mem_singleton.mpr rfl) rfl

/-- C1 counterexample: in a cycle that fetches [B, A] (ids 1 and 2),
where the delivery of B succeeds and the delivery of A fails, B's message
is the one successful delivery, yet no acknowledgment batch is passed to
mark_events_posted at all (the cycle aborts), so the batch does not
contain B's id, contrary to the claim. -/
theorem c1_counterexample :
    (poll_cycle httpTwo backendNone true sendFirstOnly).sent =
      [(0, "🔴 **SELL** BTC @ $? | P&L: $? (?%)")] ∧
    (poll_cycle httpTwo backendNone true sendFirstOnly).ackBatch = Option.none ∧
    (poll_cycle httpTwo backendNone true sendFirstOnly).errored = true :=
  ⟨rfl, rfl, rfl⟩
